import Mathlib

/-!
Shallow embedding of `covid.py` (a COVID-19 data tracker script) and proofs
about its behaviour.  The script fetches JSON summaries from a REST API,
pretty-prints them, and turns a date-keyed cumulative-cases mapping into a
daily-new-cases series with a 7-day rolling average.

Modelling conventions:
* JSON values are the inductive `Json`; Python `dict.get` is association-list
  lookup (keys are unique in a parsed JSON object).
* Python exceptions are `Except String`; a raised exception is `.error msg`.
* Network and matplotlib side effects are data: a fetch outcome is an
  `Except` supplied by the environment, and the chart sink is recorded as the
  would-be console lines plus the two data series handed to the plot calls.
-/

namespace Covid

/-- JSON-like values as parsed from the API responses (`r.json()` results).
Only the shapes the script touches are needed: null, integers, strings and
objects.  An object's keys are unique, as in any parsed JSON/Python dict. -/
inductive Json where
  | null : Json
  | num : Int → Json
  | str : String → Json
  | obj : List (String × Json) → Json

/-- Python truthiness (`bool(x)`) for the `Json` values: `None`, `0`, `""`
and `{}` are falsy, everything else truthy.  Used by `timeline or payload`
and by `if not cases`. -/
def truthy : Json → Bool
  | .null => false
  | .num n => n != 0
  | .str s => !s.isEmpty
  | .obj fs => !fs.isEmpty

/-- Decide whether an `Except` is an error (a raised Python exception). -/
def isErr {ε α : Type} : Except ε α → Bool
  | .error _ => true
  | .ok _ => false

/-- Insert a comma after every third digit of a reversed digit list; helper
for Python's thousands-separator format `f"{n:,}"`. -/
def groupRev : List Char → List Char
  | c₁ :: c₂ :: c₃ :: c₄ :: rest => c₁ :: c₂ :: c₃ :: ',' :: groupRev (c₄ :: rest)
  | l => l

/-- Python's `f"{n:,}"` for an integer: decimal digits with thousands
separators, with a leading minus sign for negatives. -/
def commaFmt (n : Int) : String :=
  (if n < 0 then "-" else "") ++ String.mk (groupRev (toString n.natAbs).toList.reverse).reverse

/-- Formatting `f"{v:,}"` applied to the result of a `data.get(key)` with no
default: a present integer renders with separators; an absent key yields
`None`, and formatting `None` with `","` raises `TypeError`; a present
non-integer value likewise fails to accept the `","` format spec. -/
def fmtValue : Option Json → Except String String
  | some (.num n) => .ok (commaFmt n)
  | some _ => .error "TypeError: cannot apply format spec to non-integer value"
  | none => .error "TypeError: unsupported format string passed to NoneType.__format__"

/-- Rendering of `datetime.utcfromtimestamp(ms/1000).strftime(...)`.  The
calendar arithmetic is not modelled; the rendered line is abstracted as a
total function of the epoch-milliseconds value (it raises nothing for any
integer input the claims exercise). -/
def utcTimestampStr (ms : Int) : String :=
  s!"utc:{ms / 1000}"

/-- Python `str(x)` for the `Json` values (used when a raw value lands in an
f-string, e.g. the country label). -/
def jsonToStr : Json → String
  | .null => "None"
  | .num n => toString n
  | .str s => s
  | .obj _ => "\x7b...\x7d"

/-- Rendering of the `Updated:` line from the value of
`data.get('updated', 0)`: a numeric value (the default `0` included) is
divided by 1000 and rendered; a present non-numeric value makes the
division raise `TypeError`. -/
def updatedLine (v : Json) : Except String String :=
  match v with
  | .num ms => Except.ok ("  Updated: " ++ utcTimestampStr ms)
  | _ => Except.error "TypeError: unsupported operand type(s) for /"

/-- Embedding of `pretty_print_global(data)`: the list of printed lines, or
the first raised exception.  `updated` is fetched with default `0`; every
counter (`cases`, `todayCases`, `deaths`, `todayDeaths`, `recovered`,
`active`, `critical`) is fetched with NO default and formatted with `:,`,
so an absent counter raises `TypeError` (see `fmtValue`). -/
def prettyPrintGlobal : Json → Except String (List String)
  | .obj fs => do
    let upd ← updatedLine ((fs.lookup "updated").getD (Json.num 0))
    let c ← fmtValue (fs.lookup "cases")
    let tc ← fmtValue (fs.lookup "todayCases")
    let de ← fmtValue (fs.lookup "deaths")
    let td ← fmtValue (fs.lookup "todayDeaths")
    let re ← fmtValue (fs.lookup "recovered")
    let ac ← fmtValue (fs.lookup "active")
    let cr ← fmtValue (fs.lookup "critical")
    Except.ok ["\nGlobal summary:", upd, s!"  Cases: {c}", s!"  Today Cases: {tc}",
      s!"  Deaths: {de}", s!"  Today Deaths: {td}", s!"  Recovered: {re}",
      s!"  Active: {ac}", s!"  Critical: {cr}"]
  | _ => Except.error "AttributeError: object has no attribute get"

/-- Embedding of `pretty_print_country(data)`: `country` defaults to
`"Unknown"`, `updated` defaults to `0`; all counters (`cases`, `todayCases`,
`deaths`, `todayDeaths`, `recovered`, `active`, `tests`, `population`) are
fetched with NO default and formatted with `:,`. -/
def prettyPrintCountry : Json → Except String (List String)
  | .obj fs => do
    let country := jsonToStr ((fs.lookup "country").getD (Json.str "Unknown"))
    let upd ← updatedLine ((fs.lookup "updated").getD (Json.num 0))
    let c ← fmtValue (fs.lookup "cases")
    let tc ← fmtValue (fs.lookup "todayCases")
    let de ← fmtValue (fs.lookup "deaths")
    let td ← fmtValue (fs.lookup "todayDeaths")
    let re ← fmtValue (fs.lookup "recovered")
    let ac ← fmtValue (fs.lookup "active")
    let te ← fmtValue (fs.lookup "tests")
    let po ← fmtValue (fs.lookup "population")
    Except.ok [s!"\n{country} summary:", upd, s!"  Cases: {c} (Today: {tc})",
      s!"  Deaths: {de} (Today: {td})", s!"  Recovered: {re}", s!"  Active: {ac}",
      s!"  Tests: {te}", s!"  Population: {po}"]
  | _ => Except.error "AttributeError: object has no attribute get"

/-- Embedding of line 79, `timeline = historical_json.get("timeline") or
historical_json`, for an object payload with fields `fs`: if the `timeline`
key is present with a truthy value the nested timeline is used, otherwise
(absent key, or present-but-falsy value) the whole payload stands in. -/
def getTimeline (fs : List (String × Json)) : Json :=
  match fs.lookup "timeline" with
  | some t => if truthy t then t else Json.obj fs
  | none => Json.obj fs

/-- Split a character list at every `/` (the behaviour of
`s.split("/")` / `s.splitOn "/"` on the date keys); `acc` holds the current
field reversed. -/
def splitSlash : List Char → List Char → List (List Char)
  | [], acc => [acc.reverse]
  | c :: cs, acc => if c = '/' then acc.reverse :: splitSlash cs [] else splitSlash cs (c :: acc)

/-- Parse one or two ASCII-digit characters as a number; `none` otherwise.
This is the shape of one `strptime` field of `"%m/%d/%y"`: each of `%m`,
`%d`, `%y` consumes one or two digits (range checks are done by the caller,
matching the regex ranges `strptime` compiles for each directive). -/
def parseTwoDigit : List Char → Option Nat
  | [c] => if c.isDigit then some (c.toNat - 48) else none
  | [c, d] =>
    if c.isDigit && d.isDigit then some ((c.toNat - 48) * 10 + (d.toNat - 48)) else none
  | _ => none

/-- Gregorian leap-year rule, as used by `datetime` for day-of-month
validation. -/
def isLeapYear (y : Nat) : Bool :=
  y % 4 = 0 && (y % 100 != 0 || y % 400 = 0)

/-- Number of days in a month of a given (full) year. -/
def daysInMonth (m y : Nat) : Nat :=
  if m = 2 then (if isLeapYear y then 29 else 28)
  else if m = 4 || m = 6 || m = 9 || m = 11 then 30
  else 31

/-- Embedding of `datetime.strptime(s, "%m/%d/%y")` (what
`pd.to_datetime(..., format="%m/%d/%y")` applies to each index entry):
split on `/` into exactly three fields, each one or two digits; month in
1..12, day in 1..31 and valid for the month, two-digit year in 0..99 mapped
to 2000..2068 / 1969..1999 by the POSIX pivot.  Returns the full calendar
date `(year, month, day)` or `none` (a raised `ValueError`). -/
def parseMDY (s : String) : Option (Nat × Nat × Nat) :=
  match splitSlash s.toList [] with
  | [ms, ds, ys] =>
    match parseTwoDigit ms, parseTwoDigit ds, parseTwoDigit ys with
    | some m, some d, some y2 =>
      let y := if y2 ≤ 68 then 2000 + y2 else 1900 + y2
      if 1 ≤ m && m ≤ 12 && 1 ≤ d && d ≤ daysInMonth m y then some (y, m, d)
      else none
    | _, _, _ => none
  | _ => none

/-- Order-preserving encoding of a calendar date as a single natural number
(the comparison key of the datetime index): lexicographic on
(year, month, day), injective since `month < 100` and `day < 100`. -/
def dateOrd (ymd : Nat × Nat × Nat) : Nat :=
  ymd.1 * 10000 + ymd.2.1 * 100 + ymd.2.2

/-- Parse a date key straight to its ordering key. -/
def parseDateOrd (s : String) : Option Nat :=
  (parseMDY s).map dateOrd

/-- Embedding of `pd.to_datetime(df.index, format="%m/%d/%y")` over the
(date-string, count) entries of the series: every key must parse, else the
whole conversion raises; on success each key is replaced by its date key. -/
def parseEntries (entries : List (String × Int)) : Except String (List (Nat × Int)) :=
  if entries.all (fun e => (parseDateOrd e.1).isSome) then
    .ok (entries.map (fun e => ((parseDateOrd e.1).getD 0, e.2)))
  else
    .error "ValueError: time data does not match format %m/%d/%y"

/-- Embedding of `df.sort_index()`: sort the (date-key, count) entries
ascending by date. -/
def sortByDate (l : List (Nat × Int)) : List (Nat × Int) :=
  List.insertionSort (fun a b => a.1 ≤ b.1) l

/-- Embedding of `df.diff().fillna(0)` on the cumulative-count values:
first differences of consecutive entries, with the leading undefined
difference filled with `0`. -/
def diffFillZero : List Int → List Int
  | [] => []
  | c :: cs => 0 :: List.zipWith (fun a b => a - b) cs (c :: cs)

/-- Trailing window of the up-to-7 values ending at position `i`
(`Nat` subtraction makes `i - 6` the `max (i-6) 0` of the spec). -/
def window7 (l : List Int) (i : Nat) : List Int :=
  (l.take (i + 1)).drop (i - 6)

/-- Embedding of `rolling(window=7, min_periods=1).mean()`: at each
position, the arithmetic mean (as an exact rational) of the trailing window
of at most 7 values; with `min_periods=1` the window at the start of the
series simply shrinks, so no position is left undefined. -/
def rollingMean7 (l : List Int) : List Rat :=
  (List.range l.length).map (fun i => ((window7 l i).sum : Rat) / ((window7 l i).length : Rat))

/-- Values of a `cases` mapping must all be integers for the pandas
differencing to go through; a non-numeric value makes the numeric pipeline
raise `TypeError`. -/
def toIntEntries (ces : List (String × Json)) : Except String (List (String × Int)) :=
  if ces.all (fun e => match e.2 with | .num _ => true | _ => false) then
    .ok (ces.map (fun e => (e.1, match e.2 with | .num n => n | _ => 0)))
  else
    .error "TypeError: non-numeric value in cases series"

/-- Outcome of a successful `plot_new_cases` run: the sorted date keys, the
two series handed to `plt.plot`, and the console lines of the sink step
(`savefig` prints a confirmation; `show` prints nothing). -/
structure PlotData where
  dates : List Nat
  newCases : List Int
  avg : List Rat
  title : String
  sinkLines : List String
deriving DecidableEq

/-- Embedding of `plot_new_cases(historical_json, savepath, country_label)`:
resolve the timeline (`get("timeline") or payload`), extract `cases`,
raise `ValueError("No 'cases' data in historical data")` when it is absent
or falsy, then parse dates, sort by date, difference, and average.  The
`.ok` result carries everything the chart rendering receives; every raise
happens before `plt.figure()`, so an `.error` result means no figure, file
or display was produced. -/
def plotNewCases (payload : Json) (savepath : Option String) (countryLabel : String) :
    Except String PlotData :=
  match payload with
  | .obj pfs =>
    match getTimeline pfs with
    | .obj tfs =>
      match tfs.lookup "cases" with
      | none => .error "No 'cases' data in historical data"
      | some cj =>
        if truthy cj then
          match cj with
          | .obj ces => do
            let entries ← toIntEntries ces
            let parsed ← parseEntries entries
            let sorted := sortByDate parsed
            let newCases := diffFillZero (sorted.map Prod.snd)
            Except.ok { dates := sorted.map Prod.fst
                        newCases := newCases
                        avg := rollingMean7 newCases
                        title := "Daily new COVID-19 cases — " ++ countryLabel
                        sinkLines := match savepath with
                          | some p => ["Saved plot to: " ++ p]
                          | none => [] }
          | _ => .error "TypeError: cases series is not a mapping"
        else .error "No 'cases' data in historical data"
    | _ => .error "AttributeError: object has no attribute get"
  | _ => .error "AttributeError: object has no attribute get"

/-- Base URL of the upstream API (`API_BASE` in the script). -/
def API_BASE : String := "https://disease.sh/v3/covid-19"

/-- The `days` argument of `fetch_country_historical`: either the literal
string `"all"` or an integer day count (line 140 of the script chooses
which). -/
inductive DaysParam where
  | all : DaysParam
  | num : Int → DaysParam

/-- Python `str(days)` applied to the `lastdays` request parameter. -/
def daysParamStr : DaysParam → String
  | .all => "all"
  | .num n => toString n

/-- Embedding of line 140, `days_param = "all" if (args.days <= 0) else
args.days`. -/
def mainDaysParam (d : Int) : DaysParam :=
  if d ≤ 0 then .all else .num d

/-- Embedding of the request `fetch_country_historical` issues: the URL
`{API_BASE}/historical/{country}` and the query parameters
`lastdays=str(days)`. -/
def fetchCountryHistoricalRequest (country : String) (days : DaysParam) :
    String × List (String × String) :=
  (API_BASE ++ "/historical/" ++ country, [("lastdays", daysParamStr days)])

/-- Parsed command-line arguments of `main` (`--country`, `--days` with
default 365, `--saveplot`). -/
structure Args where
  country : Option String
  days : Int
  saveplot : Option String

/-- The outside world as `main` observes it: the outcome of the global and
country summary fetches, and the historical fetch as a function of the
request actually issued.  A country fetch error carries whether it was a
`requests.HTTPError` (the script prints a different message for those). -/
structure Env where
  globalResult : Except String Json
  countryResult : Except (Bool × String) Json
  histNet : String × List (String × String) → Except String Json

/-- Embedding of lines 139-147 of `main`: compute `days_param`, fetch the
historical data, resolve the chart label (`hist.get("country") or country`)
and run `plot_new_cases`; any raise is caught and reported, and control
falls through either way. -/
def histPhase (env : Env) (args : Args) (country : String) : List String :=
  match env.histNet (fetchCountryHistoricalRequest country (mainDaysParam args.days)) with
  | .error e => ["Could not fetch or plot historical data: " ++ e]
  | .ok hist =>
    let label := match hist with
      | .obj hfs =>
        match hfs.lookup "country" with
        | some cv => if truthy cv then jsonToStr cv else country
        | none => country
      | _ => country
    match plotNewCases hist args.saveplot label with
    | .error e => ["Could not fetch or plot historical data: " ++ e]
    | .ok pd => pd.sinkLines

/-- Embedding of lines 128-147 of `main`: fetch and print the country
summary inside a `try` whose `except` branches print and `return`, then run
the historical phase.  Nothing here can change the exit status. -/
def countryPhase (env : Env) (args : Args) (country : String) : List String :=
  match env.countryResult with
  | .error (true, e) =>
    ["\nError fetching country summary for '" ++ country ++ "': " ++ e]
  | .error (false, e) =>
    ["\nUnexpected error fetching country summary: " ++ e]
  | .ok cdata =>
    match prettyPrintCountry cdata with
    | .error e => ["\nUnexpected error fetching country summary: " ++ e]
    | .ok clines => clines ++ histPhase env args country

/-- Embedding of `main`: the exit status and the console lines.  Only the
first `try` block (global fetch + `pretty_print_global`) can reach
`sys.exit(1)`; every later path returns normally, which is exit status 0. -/
def mainRun (env : Env) (args : Args) : Nat × List String :=
  match env.globalResult with
  | .error e => (1, ["Failed to fetch global summary: " ++ e])
  | .ok g =>
    match prettyPrintGlobal g with
    | .error e => (1, ["Failed to fetch global summary: " ++ e])
    | .ok glines =>
      match args.country with
      | none =>
        (0, glines ++
          ["\nNo country specified. To view country details and plot, run with --country \"India\""])
      | some country => (0, glines ++ countryPhase env args country)

/-- The condition under which the first `try` block of `main` raises: the
global fetch itself fails, or the fetched record makes
`pretty_print_global` raise. -/
def globalStepFails (env : Env) : Bool :=
  match env.globalResult with
  | .error _ => true
  | .ok g => isErr (prettyPrintGlobal g)

/-! Helper lemmas about list indexing, shared by the claim theorems. -/

theorem getD_zipWith_sub :
    ∀ (as bs : List Int) (j : Nat), j < as.length → j < bs.length →
      (List.zipWith (fun a b => a - b) as bs).getD j 0 = as.getD j 0 - bs.getD j 0
  | _ :: _, _ :: _, 0, _, _ => rfl
  | a :: as, b :: bs, j + 1, h₁, h₂ => by
    simpa using getD_zipWith_sub as bs j (by simpa using h₁) (by simpa using h₂)
  | [], _, _, h₁, _ => absurd h₁ (by simp)
  | _ :: _, [], _, _, h₂ => absurd h₂ (by simp)

theorem sum_take_getD :
    ∀ (xs : List Int) (k : Nat), (xs.take k).sum = ∑ j in Finset.range k, xs.getD j 0
  | _, 0 => by simp
  | [], _ => by simp
  | x :: xs, k + 1 => by
    rw [List.take_succ_cons, List.sum_cons, sum_take_getD xs k, Finset.sum_range_succ']
    simp [add_comm]

theorem getD_drop :
    ∀ (l : List Int) (m j : Nat), (l.drop m).getD j 0 = l.getD (m + j) 0
  | _, 0, _ => by simp
  | [], _ + 1, _ => by simp
  | _ :: l, m + 1, j => by
    have ih := getD_drop l m j
    simp [Nat.add_right_comm m 1 j, ih]

theorem window7_sum (l : List Int) (i : Nat) :
    (window7 l i).sum = ∑ j in Finset.Icc (i - 6) i, l.getD j 0 := by
  rw [window7, List.drop_take, sum_take_getD, ← Nat.Ico_succ_right,
    Finset.sum_Ico_eq_sum_range]
  exact Finset.sum_congr rfl (fun j _ => getD_drop l (i - 6) j)

theorem window7_card (l : List Int) (i : Nat) (h : i < l.length) :
    (window7 l i).length = (Finset.Icc (i - 6) i).card := by
  simp only [window7, List.length_drop, List.length_take, Nat.card_Icc]
  omega

/-- C1: the daily-new-cases series computed by `plot_new_cases` (the
`diff().fillna(0)` step, embedded as `diffFillZero`) has the same length as
the cumulative series, starts with `0`, and at every later position equals
the difference of consecutive cumulative values. -/
theorem diff_spec (c : List Int) :
    (diffFillZero c).length = c.length ∧
    (diffFillZero c).getD 0 0 = 0 ∧
    ∀ i, 0 < i → i < c.length →
      (diffFillZero c).getD i 0 = c.getD i 0 - c.getD (i - 1) 0 := by
  cases c with
  | nil => exact ⟨rfl, rfl, fun i _ hi => absurd hi (by simp)⟩
  | cons a cs =>
    refine ⟨by simp [diffFillZero], rfl, ?_⟩
    intro i hi hlen
    match i, hi with
    | j + 1, _ =>
      have hj : j < cs.length := by simpa using hlen
      show (0 :: List.zipWith (fun a b => a - b) cs (a :: cs)).getD (j + 1) 0 = _
      rw [List.getD_cons_succ, getD_zipWith_sub cs (a :: cs) j hj (by simp; omega)]
      simp

theorem diff_spec_witness : (diffFillZero [3, 5, 4]).getD 2 0 = -1 := by
  have h := (diff_spec [3, 5, 4]).2.2 2 (by decide) (by decide)
  simpa using h

/-- C9: on the concrete 10-day cumulative input
`[10,10,12,15,15,20,25,30,30,31]` the pipeline produces the daily deltas
`[0,0,2,3,0,5,5,5,0,1]`, and the 7-day rolling average at index 9 is the
mean of the deltas at positions 3..9, namely `19/7`. -/
theorem ten_day_example :
    diffFillZero [10, 10, 12, 15, 15, 20, 25, 30, 30, 31] = [0, 0, 2, 3, 0, 5, 5, 5, 0, 1] ∧
    (rollingMean7 (diffFillZero [10, 10, 12, 15, 15, 20, 25, 30, 30, 31])).getD 9 0 =
      (3 + 0 + 5 + 5 + 5 + 0 + 1 : Rat) / 7 := by
  refine ⟨rfl, ?_⟩
  have h : (rollingMean7 (diffFillZero [10, 10, 12, 15, 15, 20, 25, 30, 30, 31])).getD 9 0 =
      ((19 : Int) : Rat) / ((7 : Nat) : Rat) := rfl
  rw [h]
  norm_num

/-- C2: the 7-day rolling average computed by `plot_new_cases`
(`rolling(window=7, min_periods=1).mean()`, embedded as `rollingMean7`) at
every position `i` of the daily-new-cases series equals the arithmetic mean
of the values at positions `max (i-6) 0` through `i` (`Nat` subtraction
makes `i - 6` that maximum): the trailing window shrinks at the start of
the series down to a single point. -/
theorem rolling_trailing_mean (l : List Int) (i : Nat) (h : i < l.length) :
    (rollingMean7 l).getD i 0 =
      (∑ j in Finset.Icc (i - 6) i, ((l.getD j 0 : Int) : Rat)) /
        ((Finset.Icc (i - 6) i).card : Rat) := by
  have hget : (rollingMean7 l).getD i 0 =
      ((window7 l i).sum : Rat) / ((window7 l i).length : Rat) := by
    simp [rollingMean7, List.getD_eq_getElem?_getD, List.getElem?_range h]
  rw [hget, window7_sum, window7_card l i h]
  push_cast
  rfl

theorem rolling_trailing_mean_witness :
    (rollingMean7 [0, 0, 2, 3, 0, 5, 5, 5, 0, 1]).getD 9 0 =
      (∑ j in Finset.Icc (9 - 6) 9, ((([0, 0, 2, 3, 0, 5, 5, 5, 0, 1] : List Int).getD j 0 : Int) : Rat)) /
        ((Finset.Icc (9 - 6) 9).card : Rat) :=
  rolling_trailing_mean [0, 0, 2, 3, 0, 5, 5, 5, 0, 1] 9 (by decide)

theorem zipWith_sub_nonneg :
    ∀ (a : Int) (cs : List Int), List.Chain' (fun p q => p ≤ q) (a :: cs) →
      ∀ x ∈ List.zipWith (fun p q => p - q) cs (a :: cs), 0 ≤ x
  | _, [], _, _, hx => by simp at hx
  | a, b :: cs, h, x, hx => by
    rw [List.zipWith_cons_cons] at hx
    rcases List.mem_cons.mp hx with rfl | hx'
    · have hab : a ≤ b := (List.chain'_cons.mp h).1
      omega
    · exact zipWith_sub_nonneg b cs (List.chain'_cons.mp h).2 x hx'

/-- C7 (amended): the daily-new-cases series derived by `plot_new_cases` is
pointwise non-negative provided the cumulative series is non-decreasing in
date order; the code itself never checks this, and a decreasing cumulative
pair yields a negative delta (see the counterexample). -/
theorem deltas_nonneg_of_monotone (c : List Int)
    (h : List.Chain' (fun p q => p ≤ q) c) :
    ∀ x ∈ diffFillZero c, 0 ≤ x := by
  cases c with
  | nil => intro x hx; simp [diffFillZero] at hx
  | cons a cs =>
    intro x hx
    rcases List.mem_cons.mp hx with rfl | hx'
    · exact le_refl 0
    · exact zipWith_sub_nonneg a cs h x hx'

theorem deltas_nonneg_of_monotone_witness :
    0 ≤ (diffFillZero [1, 2, 2, 5]).getD 2 0 :=
  deltas_nonneg_of_monotone [1, 2, 2, 5] (by norm_num [List.chain'_cons])
    ((diffFillZero [1, 2, 2, 5]).getD 2 0) (by decide)

/-- C7 (counterexample): `plot_new_cases` accepts a history whose
cumulative counts decrease and then produces a negative delta, so the
derived daily-new-cases series is not non-negative for every accepted
input. -/
theorem deltas_negative_counterexample :
    (plotNewCases (Json.obj [("timeline", Json.obj [("cases",
        Json.obj [("1/1/20", Json.num 5), ("1/2/20", Json.num 3)])])]) none "India").map
        PlotData.newCases =
      Except.ok [0, -2] ∧
    ¬ (∀ x ∈ ([0, -2] : List Int), 0 ≤ x) := by
  refine ⟨rfl, fun h => ?_⟩
  have h2 := h (-2) (by simp)
  omega

/-- C3 (counterexample): on a record with no fields at all, both formatters
raise (`data.get('cases')` yields `None` and the `:,` format spec rejects
`None` with `TypeError`), so missing counters are NOT rendered as a
default `0`. -/
theorem formatter_raises_counterexample :
    isErr (prettyPrintGlobal (Json.obj [])) = true ∧
    isErr (prettyPrintCountry (Json.obj [])) = true :=
  ⟨rfl, rfl⟩

/-- Counter keys `pretty_print_global` fetches with no default and formats
with `:,`, in print order. -/
def globalCounterKeys : List String :=
  ["cases", "todayCases", "deaths", "todayDeaths", "recovered", "active", "critical"]

/-- Counter keys `pretty_print_country` fetches with no default and formats
with `:,`, in print order. -/
def countryCounterKeys : List String :=
  ["cases", "todayCases", "deaths", "todayDeaths", "recovered", "active", "tests", "population"]

theorem isErr_bind_of_all {α β : Type} (x : Except String α) (f : α → Except String β)
    (h : ∀ a, isErr (f a) = true) : isErr (x >>= f) = true := by
  cases x with
  | error e => rfl
  | ok a => exact h a

/-- C3 (amended): the only defaulted fields are `updated` (default `0`) and
`country` (default `"Unknown"`); every counter key is fetched with no
default and then formatted with `:,`, so a record missing ANY one of its
formatter's counter keys (`cases`, `todayCases`, `deaths`, `todayDeaths`,
`recovered`, `active`, `critical` for the global formatter; those plus
`tests` and `population` instead of `critical` for the country formatter)
makes that formatter raise instead of rendering `0`. -/
theorem formatter_missing_counter_raises (fs : List (String × Json)) (k : String)
    (hnone : fs.lookup k = none) :
    (k ∈ globalCounterKeys → isErr (prettyPrintGlobal (Json.obj fs)) = true) ∧
    (k ∈ countryCounterKeys → isErr (prettyPrintCountry (Json.obj fs)) = true) := by
  constructor
  · intro hmem
    simp only [globalCounterKeys, List.mem_cons, List.not_mem_nil, or_false] at hmem
    simp only [prettyPrintGlobal]
    rcases hmem with rfl | rfl | rfl | rfl | rfl | rfl | rfl
    · apply isErr_bind_of_all; intro _
      rw [hnone]; rfl
    · apply isErr_bind_of_all; intro _
      apply isErr_bind_of_all; intro _
      rw [hnone]; rfl
    · apply isErr_bind_of_all; intro _
      apply isErr_bind_of_all; intro _
      apply isErr_bind_of_all; intro _
      rw [hnone]; rfl
    · apply isErr_bind_of_all; intro _
      apply isErr_bind_of_all; intro _
      apply isErr_bind_of_all; intro _
      apply isErr_bind_of_all; intro _
      rw [hnone]; rfl
    · apply isErr_bind_of_all; intro _
      apply isErr_bind_of_all; intro _
      apply isErr_bind_of_all; intro _
      apply isErr_bind_of_all; intro _
      apply isErr_bind_of_all; intro _
      rw [hnone]; rfl
    · apply isErr_bind_of_all; intro _
      apply isErr_bind_of_all; intro _
      apply isErr_bind_of_all; intro _
      apply isErr_bind_of_all; intro _
      apply isErr_bind_of_all; intro _
      apply isErr_bind_of_all; intro _
      rw [hnone]; rfl
    · apply isErr_bind_of_all; intro _
      apply isErr_bind_of_all; intro _
      apply isErr_bind_of_all; intro _
      apply isErr_bind_of_all; intro _
      apply isErr_bind_of_all; intro _
      apply isErr_bind_of_all; intro _
      apply isErr_bind_of_all; intro _
      rw [hnone]; rfl
  · intro hmem
    simp only [countryCounterKeys, List.mem_cons, List.not_mem_nil, or_false] at hmem
    simp only [prettyPrintCountry]
    rcases hmem with rfl | rfl | rfl | rfl | rfl | rfl | rfl | rfl
    · apply isErr_bind_of_all; intro _
      rw [hnone]; rfl
    · apply isErr_bind_of_all; intro _
      apply isErr_bind_of_all; intro _
      rw [hnone]; rfl
    · apply isErr_bind_of_all; intro _
      apply isErr_bind_of_all; intro _
      apply isErr_bind_of_all; intro _
      rw [hnone]; rfl
    · apply isErr_bind_of_all; intro _
      apply isErr_bind_of_all; intro _
      apply isErr_bind_of_all; intro _
      apply isErr_bind_of_all; intro _
      rw [hnone]; rfl
    · apply isErr_bind_of_all; intro _
      apply isErr_bind_of_all; intro _
      apply isErr_bind_of_all; intro _
      apply isErr_bind_of_all; intro _
      apply isErr_bind_of_all; intro _
      rw [hnone]; rfl
    · apply isErr_bind_of_all; intro _
      apply isErr_bind_of_all; intro _
      apply isErr_bind_of_all; intro _
      apply isErr_bind_of_all; intro _
      apply isErr_bind_of_all; intro _
      apply isErr_bind_of_all; intro _
      rw [hnone]; rfl
    · apply isErr_bind_of_all; intro _
      apply isErr_bind_of_all; intro _
      apply isErr_bind_of_all; intro _
      apply isErr_bind_of_all; intro _
      apply isErr_bind_of_all; intro _
      apply isErr_bind_of_all; intro _
      apply isErr_bind_of_all; intro _
      rw [hnone]; rfl
    · apply isErr_bind_of_all; intro _
      apply isErr_bind_of_all; intro _
      apply isErr_bind_of_all; intro _
      apply isErr_bind_of_all; intro _
      apply isErr_bind_of_all; intro _
      apply isErr_bind_of_all; intro _
      apply isErr_bind_of_all; intro _
      apply isErr_bind_of_all; intro _
      rw [hnone]; rfl

theorem formatter_missing_counter_raises_witness :
    isErr (prettyPrintGlobal (Json.obj [("updated", Json.num 0)])) = true ∧
    isErr (prettyPrintCountry (Json.obj [("updated", Json.num 0)])) = true := by
  have h := formatter_missing_counter_raises [("updated", Json.num 0)] "todayCases" rfl
  exact ⟨h.1 (by simp [globalCounterKeys]), h.2 (by simp [countryCounterKeys])⟩

/-- C4: when the resolved timeline lacks the `cases` key, or maps it to an
empty mapping, `plot_new_cases` raises
`ValueError("No 'cases' data in historical data")`; the `.error` result is
produced before any plotting step, so no figure, file or display is
created. -/
theorem plot_missing_series (pfs tfs : List (String × Json)) (sp : Option String) (lbl : String)
    (htl : getTimeline pfs = Json.obj tfs)
    (hc : tfs.lookup "cases" = none ∨ tfs.lookup "cases" = some (Json.obj [])) :
    plotNewCases (Json.obj pfs) sp lbl =
      Except.error "No 'cases' data in historical data" := by
  rcases hc with hc | hc <;> simp [plotNewCases, htl, hc, truthy]

theorem plot_missing_series_witness :
    plotNewCases (Json.obj [("timeline", Json.obj [("cases", Json.obj [])])]) none "X" =
      Except.error "No 'cases' data in historical data" :=
  plot_missing_series [("timeline", Json.obj [("cases", Json.obj [])])]
    [("cases", Json.obj [])] none "X" rfl (Or.inr rfl)

/-- C10: the nested-timeline branch of line 79 is taken exactly when the
`timeline` value is truthy; a present-but-falsy `timeline` value (empty
mapping, null, ...) makes the whole payload stand in as the timeline, just
as an absent key does, so the top-level `cases` key is the one consulted. -/
theorem timeline_truthy_branch (fs : List (String × Json)) (t : Json)
    (h : fs.lookup "timeline" = some t) :
    getTimeline fs = if truthy t then t else Json.obj fs := by
  unfold getTimeline
  rw [h]

theorem timeline_truthy_branch_witness :
    getTimeline [("timeline", Json.obj []), ("cases", Json.num 1)] =
      Json.obj [("timeline", Json.obj []), ("cases", Json.num 1)] := by
  have h := timeline_truthy_branch [("timeline", Json.obj []), ("cases", Json.num 1)]
    (Json.obj []) rfl
  simpa [truthy] using h

/-- C8: `main` maps a non-positive `--days` value to the literal request
parameter `lastdays="all"` and a positive one to its decimal string, and
`fetch_country_historical` issues the GET against
`{API_BASE}/historical/{country}` with exactly that `lastdays` value. -/
theorem lastdays_request (country : String) (d : Int) :
    fetchCountryHistoricalRequest country (mainDaysParam d) =
      (API_BASE ++ "/historical/" ++ country,
       [("lastdays", if d ≤ 0 then "all" else toString d)]) := by
  by_cases hd : d ≤ 0 <;>
    simp [fetchCountryHistoricalRequest, mainDaysParam, daysParamStr, hd]

/-- C5 (amended): the exit status of `main` is 1 exactly when the first
`try` block fails — the global fetch raises, or `pretty_print_global`
raises on the fetched record — and an error line mentioning the failure is
printed in that case; failures of the country fetch, the country
formatter, the historical fetch or the plot step are only reported and
leave the exit status 0. -/
theorem main_exit_code (env : Env) (args : Args) :
    (mainRun env args).1 = (if globalStepFails env then 1 else 0) ∧
    (globalStepFails env = true →
      ∃ e, ("Failed to fetch global summary: " ++ e) ∈ (mainRun env args).2) := by
  rcases hg : env.globalResult with e | g
  · exact ⟨by simp [mainRun, globalStepFails, hg], fun _ => ⟨e, by simp [mainRun, hg]⟩⟩
  · rcases hp : prettyPrintGlobal g with e | glines
    · refine ⟨by simp [mainRun, globalStepFails, isErr, hg, hp], fun _ => ⟨e, ?_⟩⟩
      simp [mainRun, hg, hp]
    · have hfail : globalStepFails env = false := by
        simp [globalStepFails, isErr, hg, hp]
      refine ⟨?_, fun hcontra => by rw [hfail] at hcontra; exact absurd hcontra (by simp)⟩
      rw [hfail]
      rcases hc : args.country with _ | c <;> simp [mainRun, hg, hp, hc]

theorem main_exit_code_witness :
    (mainRun ⟨Except.error "HTTP 500", Except.error (true, "x"), fun _ => Except.error "x"⟩
      ⟨none, 365, none⟩).1 = 1 ∧
    ∃ e, ("Failed to fetch global summary: " ++ e) ∈
      (mainRun ⟨Except.error "HTTP 500", Except.error (true, "x"), fun _ => Except.error "x"⟩
        ⟨none, 365, none⟩).2 := by
  have h := main_exit_code
    ⟨Except.error "HTTP 500", Except.error (true, "x"), fun _ => Except.error "x"⟩
    ⟨none, 365, none⟩
  exact ⟨h.1.trans (by rfl), h.2 rfl⟩

/-- C5 (counterexample): a run whose global fetch SUCCEEDS but returns a
record with no fields still exits with status 1, because
`pretty_print_global` raises inside the same `try` block; this refutes
"otherwise the exit status is 0". -/
theorem main_exit_counterexample :
    (Env.mk (Except.ok (Json.obj [])) (Except.error (true, "x"))
        (fun _ => Except.error "x")).globalResult = Except.ok (Json.obj []) ∧
    (mainRun (Env.mk (Except.ok (Json.obj [])) (Except.error (true, "x"))
        (fun _ => Except.error "x")) ⟨none, 365, none⟩).1 = 1 :=
  ⟨rfl, rfl⟩

/-- C6: parsing the `"M/D/YY"` keys with the fixed `%m/%d/%y` format and
sorting ascending by parsed date is independent of the order in which the
entries were supplied: two permutations of the same date-keyed entries
that both parse, with pairwise-distinct parsed dates, sort to exactly the
same ordered (date, count) sequence. -/
theorem parse_sort_order_independent (e₁ e₂ : List (String × Int))
    (l₁ l₂ : List (Nat × Int)) (hperm : e₁.Perm e₂)
    (h₁ : parseEntries e₁ = Except.ok l₁)
    (h₂ : parseEntries e₂ = Except.ok l₂)
    (hnd : (l₁.map Prod.fst).Nodup) :
    sortByDate l₁ = sortByDate l₂ := by
  rw [parseEntries] at h₁ h₂
  split at h₁
  · split at h₂
    · obtain rfl : e₁.map (fun e => ((parseDateOrd e.1).getD 0, e.2)) = l₁ := Except.ok.inj h₁
      obtain rfl : e₂.map (fun e => ((parseDateOrd e.1).getD 0, e.2)) = l₂ := Except.ok.inj h₂
      have hl := hperm.map (fun e => ((parseDateOrd e.1).getD 0, e.2))
      letI : IsTotal (Nat × Int) (fun a b => a.1 ≤ b.1) := ⟨fun a b => Nat.le_total a.1 b.1⟩
      letI : IsTrans (Nat × Int) (fun a b => a.1 ≤ b.1) := ⟨fun _ _ _ => Nat.le_trans⟩
      set l₁ := e₁.map (fun e => ((parseDateOrd e.1).getD 0, e.2))
      set l₂ := e₂.map (fun e => ((parseDateOrd e.1).getD 0, e.2))
      have hp₁ : List.Perm (sortByDate l₁) l₁ := List.perm_insertionSort _ l₁
      have hp₂ : List.Perm (sortByDate l₂) l₂ := List.perm_insertionSort _ l₂
      have hs₁ : List.Pairwise (fun a b : Nat × Int => a.1 ≤ b.1) (sortByDate l₁) :=
        List.sorted_insertionSort _ l₁
      have hs₂ : List.Pairwise (fun a b : Nat × Int => a.1 ≤ b.1) (sortByDate l₂) :=
        List.sorted_insertionSort _ l₂
      have hnd₁ : ((sortByDate l₁).map Prod.fst).Nodup := ((hp₁.map Prod.fst).symm).nodup hnd
      have hnd₂ : ((sortByDate l₂).map Prod.fst).Nodup :=
        ((hp₂.map Prod.fst).symm).nodup ((hl.map Prod.fst).nodup hnd)
      have hstrict₁ : List.Pairwise (fun a b : Nat × Int => a.1 < b.1) (sortByDate l₁) :=
        (hs₁.and (List.pairwise_map.mp hnd₁)).imp
          (fun h => Nat.lt_of_le_of_ne h.1 h.2)
      have hstrict₂ : List.Pairwise (fun a b : Nat × Int => a.1 < b.1) (sortByDate l₂) :=
        (hs₂.and (List.pairwise_map.mp hnd₂)).imp
          (fun h => Nat.lt_of_le_of_ne h.1 h.2)
      haveI : IsAntisymm (Nat × Int) (fun a b => a.1 < b.1) :=
        ⟨fun _ _ hab hba => (Nat.lt_asymm hab hba).elim⟩
      exact List.eq_of_perm_of_sorted (hp₁.trans (hl.trans hp₂.symm)) hstrict₁ hstrict₂
    · exact Except.noConfusion h₂
  · exact Except.noConfusion h₁

theorem parse_sort_order_independent_witness :
    sortByDate [(20200102, 4), (20200101, 3), (20200103, 7)] =
      sortByDate [(20200101, 3), (20200103, 7), (20200102, 4)] :=
  parse_sort_order_independent
    [("1/2/20", 4), ("1/1/20", 3), ("1/3/20", 7)]
    [("1/1/20", 3), ("1/3/20", 7), ("1/2/20", 4)]
    [(20200102, 4), (20200101, 3), (20200103, 7)]
    [(20200101, 3), (20200103, 7), (20200102, 4)]
    (by decide) rfl rfl (by decide)

end Covid
